import Mathlib

/-!
Verification development for the AI session orchestration layer of the
Path_To_Auth journaling application.

The development shallowly embeds the TypeScript sources:
  * `src/hooks/useReflectionSession.ts` — the 10-question reflection
    interview state machine and the heuristic analysis parser;
  * `src/services/aiService.ts` — the completion-gateway wrappers, which
    catch every gateway failure and substitute a fixed apology string;
  * the journal-chat conversation hook (`useJournalChat`) — message
    sending, all-entries conversation lookup/creation, refresh migration,
    and the JSON persistence round trip for chat messages.

JavaScript strings are modelled as Lean `String`s; the string primitives
used by the code (`split`, `trim`, `toLowerCase`, `startsWith`,
`includes`, `substring`, `indexOf`) are re-implemented below as
structurally recursive functions on `List Char` so that every definition
evaluates by kernel reduction.  All inputs exercised by the code are
ASCII, where these models agree with the JavaScript semantics.
-/

namespace PathToAuth

/-! ## Character-list string primitives -/

/-- ASCII lowercasing of one character, as done by `String.toLowerCase`
on ASCII input. -/
def lowerChar (c : Char) : Char :=
  if 'A' ≤ c ∧ c ≤ 'Z' then Char.ofNat (c.toNat + 32) else c

/-- Lowercase every character (model of `String.prototype.toLowerCase`
on ASCII text). -/
def lowerL (l : List Char) : List Char := l.map lowerChar

/-- Whitespace test used by `String.prototype.trim` (restricted to the
ASCII whitespace actually occurring in the modelled inputs). -/
def isWsChar (c : Char) : Bool :=
  c = ' ' || c = '\t' || c = '\n' || c = '\r'

/-- Model of `String.prototype.trim`: drop leading and trailing
whitespace. -/
def trimL (l : List Char) : List Char :=
  ((l.dropWhile isWsChar).reverse.dropWhile isWsChar).reverse

/-- Boolean test that the first list is an initial segment of the second
(model of `String.prototype.startsWith`). -/
def leadsWith : List Char → List Char → Bool
  | [], _ => true
  | _ :: _, [] => false
  | a :: as, b :: bs => a = b && leadsWith as bs

/-- `occursWithin sub l` tests whether `sub` occurs contiguously inside
`l` (model of `String.prototype.includes`). -/
def occursWithin (sub : List Char) : List Char → Bool
  | [] => leadsWith sub []
  | c :: rest => leadsWith sub (c :: rest) || occursWithin sub rest

/-- Split at every occurrence of a single character (model of
`String.prototype.split` with a one-character separator). -/
def splitOnChar (sep : Char) : List Char → List (List Char)
  | [] => [[]]
  | c :: rest =>
    let r := splitOnChar sep rest
    if c = sep then [] :: r
    else
      match r with
      | [] => [[c]]
      | l :: ls => (c :: l) :: ls

/-- Split at every non-overlapping occurrence of the two-character
separator `"\n\n"`, scanning left to right (model of
`String.prototype.split('\n\n')`). -/
def splitParas : List Char → List (List Char)
  | [] => [[]]
  | '\n' :: '\n' :: rest => [] :: splitParas rest
  | c :: rest =>
    match splitParas rest with
    | [] => [[c]]
    | l :: ls => (c :: l) :: ls

/-- Model of the regular-expression test `/^\d+\./.test(s)` after the
first digit: zero or more further digits followed by a dot. -/
def digitsThenDot : List Char → Bool
  | [] => false
  | c :: rest => c = '.' || (c.isDigit && digitsThenDot rest)

/-- Model of `/^\d+\./.test(s)`: one or more decimal digits followed by
a literal dot, at the start of the string. -/
def numDotTest : List Char → Bool
  | [] => false
  | c :: rest => c.isDigit && digitsThenDot rest

/-- Index of the first `'.'`, if any (model of
`String.prototype.indexOf('.')`, with `none` for the JavaScript `-1`). -/
def dotIndex : List Char → Option Nat
  | [] => none
  | c :: rest =>
    if c = '.' then some 0
    else (dotIndex rest).map (· + 1)

/-! ## The analysis record and its parser
(`src/hooks/useReflectionSession.ts`, `parseAnalysisResponse` and
`extractBulletPoints`) -/

/-- The `analysis` field of a `ReflectionSession`
(`src/types/journal.ts`). -/
structure Analysis where
  negative_patterns : List String
  positive_patterns : List String
  affirmations : List String
  actionable_steps : List String
  encouragement : String
deriving DecidableEq, Repr

/-- The default analysis substituted field-by-field when a section
collects nothing (`parseAnalysisResponse`, lines 64-70). -/
def defaultAnalysis : Analysis :=
  { negative_patterns := ["Need to parse AI response"]
    positive_patterns := ["Need to parse AI response"]
    affirmations := ["I am growing and learning every day."]
    actionable_steps := ["Reflect on these insights regularly"]
    encouragement := "Thank you for your honest reflections." }

/-- Second step of the bullet-point cleanup: the sequential `if`s of
`extractBulletPoints` (lines 126-132) applied to one already-trimmed
lowercased line. -/
def cleanPoint (p0 : List Char) : List Char :=
  let p1 := if leadsWith ['-'] p0 || leadsWith ['•'] p0 then trimL (p0.drop 1) else p0
  if numDotTest p1 then trimL (p1.drop (((dotIndex p1).map (· + 1)).getD 0)) else p1

/-- The loop body of `extractBulletPoints` (lines 102-136).  The state
is the `collecting` flag; the lookahead `lines[i+1].trim() === ''` is
read off the tail of the list.  `head0` is `possibleHeaders[0]`. -/
def extractGo (headers : List (List Char)) (head0 : List Char) :
    Bool → List (List Char) → List (List Char)
  | _, [] => []
  | collecting, l :: rest =>
    let line := lowerL l
    if !collecting && headers.any (fun h => occursWithin (lowerL h) line) then
      extractGo headers head0 true rest
    else if collecting && (trimL line).isEmpty then
      extractGo headers head0 collecting rest
    else if collecting && !(trimL line).isEmpty &&
        (leadsWith ['-'] (trimL line) || leadsWith ['•'] (trimL line) ||
          numDotTest (trimL line) ||
          (match rest with | next :: _ => (trimL next).isEmpty | [] => false)) then
      if headers.any (fun h => decide (h ≠ head0) && occursWithin (lowerL h) line) then
        extractGo headers head0 false rest
      else
        cleanPoint (trimL line) :: extractGo headers head0 collecting rest
    else
      extractGo headers head0 collecting rest

/-- `extractBulletPoints(text, possibleHeaders)`
(`src/hooks/useReflectionSession.ts`, lines 97-139). -/
def extractBulletPoints (text : String) (possibleHeaders : List String) : List String :=
  let lines := splitOnChar '\n' text.data
  (extractGo (possibleHeaders.map (·.data)) ((possibleHeaders.headD "").data)
      false lines).map String.mk

/-- `parseAnalysisResponse(analysisResponse)`
(`src/hooks/useReflectionSession.ts`, lines 59-94).  The body contains
only total string operations, so the `catch` branch of the source is
dead and not modelled. -/
def parseAnalysisResponse (analysisResponse : String) : Analysis :=
  let negativePatterns := extractBulletPoints analysisResponse
      ["negative patterns", "patterns to address", "challenges"]
  let positivePatterns := extractBulletPoints analysisResponse
      ["positive patterns", "strengths", "patterns to embrace"]
  let affirmations := extractBulletPoints analysisResponse
      ["affirmations", "daily affirmations"]
  let actionableSteps := extractBulletPoints analysisResponse
      ["actionable steps", "steps", "actions"]
  let paragraphs := (splitParas analysisResponse.data).map String.mk
  let lastPara := paragraphs.getLastD ""
  let encouragement :=
    if lastPara = "" then "Continue your journey with courage and compassion."
    else lastPara
  { negative_patterns :=
      if negativePatterns.isEmpty then defaultAnalysis.negative_patterns
      else negativePatterns
    positive_patterns :=
      if positivePatterns.isEmpty then defaultAnalysis.positive_patterns
      else positivePatterns
    affirmations :=
      if affirmations.isEmpty then defaultAnalysis.affirmations
      else affirmations
    actionable_steps :=
      if actionableSteps.isEmpty then defaultAnalysis.actionable_steps
      else actionableSteps
    encouragement :=
      if encouragement = "" then defaultAnalysis.encouragement
      else encouragement }

/-! ## Reflection interview data model (`src/types/journal.ts`) -/

/-- `ReflectionTheme` (`src/types/journal.ts`, lines 68-74). -/
structure ReflectionTheme where
  id : String
  name : String
  description : String
  icon : Option String
  order : Option Nat
deriving DecidableEq, Repr

/-- `ReflectionQuestion` (`src/types/journal.ts`, lines 76-83). -/
structure ReflectionQuestion where
  id : String
  question : String
  answer : Option String
  theme_id : String
  order : Nat
  created_at : String
deriving DecidableEq, Repr

/-- The `status` field of `ReflectionSession`. -/
inductive SessionStatus where
  | in_progress
  | completed
deriving DecidableEq, Repr

/-- `ReflectionSession` (`src/types/journal.ts`, lines 85-102). -/
structure ReflectionSession where
  id : String
  user_id : String
  theme_id : String
  theme_name : String
  questions : List ReflectionQuestion
  current_question_index : Nat
  status : SessionStatus
  started_at : String
  completed_at : Option String
  analysis : Option Analysis
deriving DecidableEq, Repr

/-! ## Gateway wrappers (`src/services/aiService.ts`)

`AIService.makeRequest` either produces the text
`response.choices[0].message.content` or throws (transport failure,
non-2xx status, missing choices).  One gateway round trip is therefore
modelled as an `Except String String`: `.ok content` on success,
`.error e` on any failure.  Each public `AIService` wrapper catches the
failure and substitutes its fixed apology string — it never throws. -/

/-- Apology substituted by `AIService.generateReflectionQuestions`
(line 190). -/
def apologyReflectionQuestions : String :=
  "I apologize, but I'm having trouble generating reflection questions right now. Please try again later."

/-- Apology substituted by `AIService.continueReflectionDialog`
(line 240). -/
def apologyReflectionDialog : String :=
  "I apologize, but I'm having trouble with our reflection dialog right now. Please try again later."

/-- `AIService.generateReflectionQuestions(theme)` (lines 156-192): the
prompt built from `theme` only affects the request; the returned text is
the gateway content on success and the fixed apology on failure. -/
def generateReflectionQuestions (theme : String) (gw : Except String String) : String :=
  match gw with
  | .ok content => content
  | .error _ => apologyReflectionQuestions

/-- `AIService.continueReflectionDialog(theme, qas, isLastQuestion)`
(lines 194-242): same shape as `generateReflectionQuestions`, with its
own apology string. -/
def continueReflectionDialog (theme : String) (qas : List (String × String))
    (isLastQuestion : Bool) (gw : Except String String) : String :=
  match gw with
  | .ok content => content
  | .error _ => apologyReflectionDialog

/-! ## The reflection-session hook (`src/hooks/useReflectionSession.ts`)

The hook's reactive state is a record; `startNewSession` and
`answerCurrentQuestion` are state transformers.  Non-deterministic
inputs of one call (the gateway outcome, the generated ids, the
timestamp) are explicit parameters.  The `useEffect` at lines 36-49
keeps `currentQuestion` in sync with `currentSession`; it is applied at
the end of each operation, as React does after the state update. -/

/-- The reactive state held by `useReflectionSession`. -/
structure SessionHookState where
  isLoading : Bool
  error : Option String
  currentSession : Option ReflectionSession
  currentQuestion : Option ReflectionQuestion
  hasCompletedAllQuestions : Bool
  analysis : Option Analysis
deriving DecidableEq, Repr

/-- The state of the hook before any session is started. -/
def emptySessionState : SessionHookState :=
  { isLoading := false
    error := none
    currentSession := none
    currentQuestion := none
    hasCompletedAllQuestions := false
    analysis := none }

/-- The `useEffect` at lines 36-49: derive `currentQuestion` from
`currentSession`, marking completion when the index has run past the
question list. -/
def applyQuestionSync (st : SessionHookState) : SessionHookState :=
  match st.currentSession with
  | none => { st with currentQuestion := none }
  | some s =>
    if s.current_question_index < s.questions.length then
      { st with currentQuestion := s.questions[s.current_question_index]? }
    else
      { st with currentQuestion := none, hasCompletedAllQuestions := true }

/-- `extractQuestionFromAIResponse` (lines 52-56): trim the raw
response. -/
def extractQuestionFromAIResponse (aiResponse : String) : String :=
  String.mk (trimL aiResponse.data)

/-- `startNewSession(theme)` (lines 142-181).  `gw` is the outcome of
the gateway call made by `AIService.generateReflectionQuestions`; `qid`
and `sid` are the generated ids and `now` the current timestamp.  The
`try` body itself only performs total operations
(`AIService.generateReflectionQuestions` catches internally), so the
`catch` branch of the source is dead and not modelled. -/
def startNewSession (st : SessionHookState) (userId : String)
    (theme : ReflectionTheme) (gw : Except String String)
    (qid sid now : String) : SessionHookState :=
  let aiResponse := generateReflectionQuestions theme.name gw
  let questionText := extractQuestionFromAIResponse aiResponse
  let firstQuestion : ReflectionQuestion :=
    { id := qid
      question := questionText
      answer := none
      theme_id := theme.id
      order := 1
      created_at := now }
  let newSession : ReflectionSession :=
    { id := sid
      user_id := userId
      theme_id := theme.id
      theme_name := theme.name
      questions := [firstQuestion]
      current_question_index := 0
      status := .in_progress
      started_at := now
      completed_at := none
      analysis := none }
  applyQuestionSync
    { st with
      isLoading := false
      error := none
      currentSession := some newSession
      hasCompletedAllQuestions := false
      analysis := none }

/-- Result of one `answerCurrentQuestion` call: the new hook state,
whether a gateway request was issued, and the session passed to the
`onSessionComplete` callback (when one was supplied and fired). -/
structure AnswerOutcome where
  state : SessionHookState
  usedGateway : Bool
  completionCallback : Option ReflectionSession
deriving DecidableEq, Repr

/-- `answerCurrentQuestion(answer)` (lines 184-276).  `hasCallback`
records whether an `onSessionComplete` callback was supplied to the
hook; `gw` is the outcome of the gateway call made by
`AIService.continueReflectionDialog` (if one is issued), `qid` the id
generated for the next question and `now` the timestamp.  As in
`startNewSession`, the `try` body is total, so the `catch` branch is
dead and not modelled. -/
def answerCurrentQuestion (st : SessionHookState) (answer : String)
    (hasCallback : Bool) (gw : Except String String)
    (qid now : String) : AnswerOutcome :=
  match st.currentSession, st.currentQuestion with
  | some s, some _ =>
    let currentIndex := s.current_question_index
    let updatedQuestions :=
      match s.questions[currentIndex]? with
      | some q => s.questions.set currentIndex { q with answer := some answer }
      | none => s.questions
    let questionsAndAnswers :=
      (updatedQuestions.filter (fun q => q.answer.isSome)).map
        (fun q => (q.question, q.answer.getD ""))
    if currentIndex = 9 then
      let analysisResponse :=
        continueReflectionDialog s.theme_name questionsAndAnswers true gw
      let parsedAnalysis := parseAnalysisResponse analysisResponse
      let nextSession : ReflectionSession :=
        { s with
          questions := updatedQuestions
          status := .completed
          completed_at := some now
          analysis := some parsedAnalysis
          current_question_index := currentIndex + 1 }
      { state := applyQuestionSync
          { st with
            isLoading := false
            error := none
            analysis := some parsedAnalysis
            hasCompletedAllQuestions := true
            currentSession := some nextSession }
        usedGateway := true
        completionCallback := if hasCallback then some nextSession else none }
    else
      let aiResponse :=
        continueReflectionDialog s.theme_name questionsAndAnswers false gw
      let nextQuestionText := extractQuestionFromAIResponse aiResponse
      let nextQuestion : ReflectionQuestion :=
        { id := qid
          question := nextQuestionText
          answer := none
          theme_id := s.theme_id
          order := currentIndex + 2
          created_at := now }
      let nextSession : ReflectionSession :=
        { s with
          questions := updatedQuestions ++ [nextQuestion]
          current_question_index := currentIndex + 1 }
      { state := applyQuestionSync
          { st with
            isLoading := false
            error := none
            currentSession := some nextSession }
        usedGateway := true
        completionCallback := none }
  | _, _ =>
    { state := { st with error := some "No active question to answer" }
      usedGateway := false
      completionCallback := none }

/-! ## Chat messages and their JSON persistence (`useJournalChat`)

`saveMessages` persists the in-memory message list as
`JSON.stringify(messages)`; the read paths (`loadRecentConversation`,
`selectAllEntries`) accept either a native array (old format) or a JSON
string (new format), falling back to `[]` when the parse fails.  The
`JSON.stringify` / `JSON.parse` pair is modelled character-exactly below
for the message-array shape the save path produces: the printer emits
the object keys in insertion order (`id`, `text`, `sender`,
`timestamp`) with the standard JSON string escapes, and the reader is a
recursive-descent parser for that grammar, returning `none` (hence the
`[]` fallback) on any other input. -/

/-- The `sender` field of a chat message. -/
inductive Sender where
  | user
  | ai
deriving DecidableEq, Repr

/-- `ChatMessage` as declared locally by the chat hook
(`id`, `text`, `sender`, `timestamp`). -/
structure ChatMessage where
  id : String
  text : String
  sender : Sender
  timestamp : String
deriving DecidableEq, Repr

/-- JSON spelling of a sender. -/
def senderName : Sender → String
  | .user => "user"
  | .ai => "ai"

/-- Hexadecimal digit character (lowercase, as emitted by
`JSON.stringify` escapes). -/
def hexDigitChar (n : Nat) : Char :=
  if n < 10 then Char.ofNat ('0'.toNat + n) else Char.ofNat ('a'.toNat + n - 10)

/-- The JSON escape of one character inside a string literal, as
produced by `JSON.stringify`. -/
def escapeChar (c : Char) : List Char :=
  if c = '"' then ['\\', '"']
  else if c = '\\' then ['\\', '\\']
  else if c = '\n' then ['\\', 'n']
  else if c = '\t' then ['\\', 't']
  else if c = '\r' then ['\\', 'r']
  else if c = '\x08' then ['\\', 'b']
  else if c = '\x0c' then ['\\', 'f']
  else if c.toNat < 32 then
    ['\\', 'u', '0', '0', hexDigitChar (c.toNat / 16), hexDigitChar (c.toNat % 16)]
  else [c]

/-- Escaped body of a JSON string literal, prepended to `rest`. -/
def encodeStringBody (s : List Char) (rest : List Char) : List Char :=
  match s with
  | [] => rest
  | c :: s' => escapeChar c ++ encodeStringBody s' rest

/-- A JSON string literal (quotes included), prepended to `rest`. -/
def encodeJString (s : List Char) (rest : List Char) : List Char :=
  '"' :: encodeStringBody s ('"' :: rest)

/-- One serialized message object, prepended to `rest`: the four fields
in insertion order, exactly as `JSON.stringify` lays out the hook's
message records. -/
def encodeMessage (m : ChatMessage) (rest : List Char) : List Char :=
  '\x7b' :: ("\"id\":".data ++ encodeJString m.id.data (',' ::
    ("\"text\":".data ++ encodeJString m.text.data (',' ::
      ("\"sender\":".data ++ encodeJString (senderName m.sender).data (',' ::
        ("\"timestamp\":".data ++
          encodeJString m.timestamp.data ('\x7d' :: rest))))))))

/-- Second and later array elements, each preceded by a comma. -/
def encodeMessagesTail (msgs : List ChatMessage) (rest : List Char) : List Char :=
  match msgs with
  | [] => rest
  | m :: ms => ',' :: encodeMessage m (encodeMessagesTail ms rest)

/-- `JSON.stringify(messages)` for a list of chat messages. -/
def stringifyMessages (msgs : List ChatMessage) : String :=
  match msgs with
  | [] => String.mk ['[', ']']
  | m :: ms => String.mk ('[' :: encodeMessage m (encodeMessagesTail ms [']']))

/-- Value of a hexadecimal digit character, if it is one. -/
def hexVal (c : Char) : Option Nat :=
  if '0' ≤ c ∧ c ≤ '9' then some (c.toNat - '0'.toNat)
  else if 'a' ≤ c ∧ c ≤ 'f' then some (c.toNat - 'a'.toNat + 10)
  else if 'A' ≤ c ∧ c ≤ 'F' then some (c.toNat - 'A'.toNat + 10)
  else none

/-- Decoded character of a two-character JSON escape. -/
def escDecode (e : Char) : Option Char :=
  if e = '"' then some '"'
  else if e = '\\' then some '\\'
  else if e = '/' then some '/'
  else if e = 'n' then some '\n'
  else if e = 't' then some '\t'
  else if e = 'r' then some '\r'
  else if e = 'b' then some '\x08'
  else if e = 'f' then some '\x0c'
  else none

/-- Parse the body of a JSON string literal up to its closing quote,
returning the decoded characters and the unconsumed input. -/
def parseJStringBody : List Char → Option (List Char × List Char)
  | [] => none
  | c :: rest =>
    if c = '"' then some ([], rest)
    else if c = '\\' then
      match rest with
      | [] => none
      | e :: rest1 =>
        if e = 'u' then
          match rest1 with
          | h1 :: h2 :: h3 :: h4 :: rest' =>
            match hexVal h1, hexVal h2, hexVal h3, hexVal h4 with
            | some v1, some v2, some v3, some v4 =>
              (parseJStringBody rest').map
                (fun p => (Char.ofNat (((v1 * 16 + v2) * 16 + v3) * 16 + v4) :: p.1, p.2))
            | _, _, _, _ => none
          | _ => none
        else
          match escDecode e with
          | some c' =>
            (parseJStringBody rest1).map (fun p => (c' :: p.1, p.2))
          | none => none
    else
      (parseJStringBody rest).map (fun p => (c :: p.1, p.2))

/-- Consume the exact token `tok` from the front of the input. -/
def expectChars : List Char → List Char → Option (List Char)
  | [], input => some input
  | _ :: _, [] => none
  | t :: ts, c :: cs => if c = t then expectChars ts cs else none

/-- Read a sender back from its JSON spelling. -/
def senderOfName (s : List Char) : Option Sender :=
  if s = "user".data then some Sender.user
  else if s = "ai".data then some Sender.ai
  else none

/-- Parse one serialized message object (the exact shape
`encodeMessage` emits). -/
def parseMessageObj (input : List Char) : Option (ChatMessage × List Char) := do
  let r ← expectChars ('\x7b' :: ("\"id\":".data ++ ['"'])) input
  let (idS, r) ← parseJStringBody r
  let r ← expectChars (',' :: ("\"text\":".data ++ ['"'])) r
  let (textS, r) ← parseJStringBody r
  let r ← expectChars (',' :: ("\"sender\":".data ++ ['"'])) r
  let (sndS, r) ← parseJStringBody r
  let sender ← senderOfName sndS
  let r ← expectChars (',' :: ("\"timestamp\":".data ++ ['"'])) r
  let (tsS, r) ← parseJStringBody r
  let r ← expectChars ['\x7d'] r
  pure ({ id := String.mk idS
          text := String.mk textS
          sender := sender
          timestamp := String.mk tsS }, r)

/-- Parse the rest of the array after one element: either the closing
bracket or a comma followed by another element.  `fuel` bounds the
number of elements and makes the recursion structural. -/
def parseMessagesAfter : Nat → List Char → Option (List ChatMessage × List Char)
  | _, ']' :: rest => some ([], rest)
  | fuel + 1, ',' :: rest => do
    let (m, r) ← parseMessageObj rest
    let (ms, r2) ← parseMessagesAfter fuel r
    pure (m :: ms, r2)
  | _, _ => none

/-- Parse a whole serialized message array; `none` on any input that is
not exactly the shape `stringifyMessages` produces. -/
def parseMessagesText (input : List Char) : Option (List ChatMessage) :=
  match input with
  | '[' :: ']' :: rest => if rest.isEmpty then some [] else none
  | '[' :: rest => do
    let (m, r) ← parseMessageObj rest
    let (ms, r2) ← parseMessagesAfter input.length r
    if r2.isEmpty then some (m :: ms) else none
  | _ => none

/-- The persisted `messages` column as the read path sees it: a native
array (old format), a serialized string (new format), or anything
else. -/
inductive StoredMessages where
  | array (msgs : List ChatMessage)
  | serialized (s : String)
  | other
deriving DecidableEq, Repr

/-- The read path for the persisted `messages` column
(`loadRecentConversation` lines 102-120, duplicated in
`selectAllEntries` lines 373-386): use a native array as is, parse a
string and fall back to `[]` on failure, and treat any other shape as
`[]`. -/
def loadStoredMessages : StoredMessages → List ChatMessage
  | .array msgs => msgs
  | .serialized s =>
    match parseMessagesText s.data with
    | some ms => ms
    | none => []
  | .other => []

/-- The save path (`saveMessages`, lines 152-167): the whole message
list is written as one JSON string keyed by the conversation id. -/
def saveMessagesStored (msgs : List ChatMessage) : StoredMessages :=
  .serialized (stringifyMessages msgs)

/-! ## The journal-chat hook (`useJournalChat`)

The hook's reactive state and the `chat_conversations` table are
records; each operation is a state transformer over both.
Conversation ids are modelled as naturals handed out by a counter
(`ChatDb.nextId`), which captures the only property the claims use:
a newly inserted row's id differs from every id already present.
The external journal-entry collection (`useJournal().entries`, cached
in `latestEntriesRef`) and the `journal_entries` table are passed as
explicit parameters.  Database calls are modelled as succeeding; the
`catch` branches for persistence failures are outside the claims. -/

/-- The fields of `JournalEntry` (`src/types/journal.ts`) used by the
chat hook. -/
structure JournalEntry where
  id : String
  content : String
  mood : String
  tags : List String
  created_at : String
deriving DecidableEq, Repr

/-- One row of the `chat_conversations` table, as touched by the
hook. -/
structure ConversationRow where
  id : Nat
  user_id : String
  entry_ids : Option (List String)
  is_all_entries : Bool
  messages : StoredMessages
  last_updated : Nat
deriving DecidableEq, Repr

/-- The `chat_conversations` table plus the id counter. -/
structure ChatDb where
  rows : List ConversationRow
  nextId : Nat
deriving DecidableEq, Repr

/-- The reactive state held by `useJournalChat` (the fields the claims
concern). -/
structure ChatState where
  messages : List ChatMessage
  isLoading : Bool
  selectedEntry : Option JournalEntry
  isAllEntriesMode : Bool
  conversationId : Option Nat
  isBookmarked : Bool
deriving DecidableEq, Repr

/-- Seeded AI greeting for a new all-entries conversation
(`createNewConversation`, line 324). -/
def allEntriesGreeting : String :=
  "I'm ready to discuss all your journal entries. What would you like to explore about your journaling history?"

/-- Seeded AI greeting for a new single-entry conversation
(`createNewConversation`, line 325). -/
def singleEntryGreeting : String :=
  "I'm looking at your journal entry. What would you like to discuss about it?"

/-- The seeded initial message of `createNewConversation`
(lines 321-328). -/
def initialChatMessage (isAll : Bool) (msgId now : String) : ChatMessage :=
  { id := msgId
    text := if isAll then allEntriesGreeting else singleEntryGreeting
    sender := .ai
    timestamp := now }

/-- `createNewConversation(entryIds, isAll)` (lines 318-346): insert a
row whose messages column is the JSON string of the seeded greeting,
set the in-memory list to that one message, and return the new row's
id.  `ts` is the row timestamp assigned by the store. -/
def createNewConversation (st : ChatState) (db : ChatDb) (userId : String)
    (entryIds : Option (List String)) (isAll : Bool) (msgId now : String)
    (ts : Nat) : ChatState × ChatDb × Nat :=
  let m := initialChatMessage isAll msgId now
  let row : ConversationRow :=
    { id := db.nextId
      user_id := userId
      entry_ids := entryIds
      is_all_entries := isAll
      messages := saveMessagesStored [m]
      last_updated := ts }
  ({ st with messages := [m] },
   { rows := db.rows ++ [row], nextId := db.nextId + 1 },
   db.nextId)

/-- Scan for the row with the greatest `last_updated`, keeping the
earlier row on ties (the first row of the store's stable descending
order). -/
def pickLatest : List ConversationRow → Option ConversationRow
  | [] => none
  | r :: rest =>
    match pickLatest rest with
    | none => some r
    | some b => if b.last_updated > r.last_updated then some b else some r

/-- The query of `selectAllEntries` (lines 358-364): the
most-recently-updated all-entries conversation of the user, if any. -/
def latestAllEntries (db : ChatDb) (userId : String) : Option ConversationRow :=
  pickLatest (db.rows.filter
    (fun r => r.user_id = userId && r.is_all_entries))

/-- `selectAllEntries()` (lines 349-409): switch to all-entries mode,
reuse the most-recently-updated existing all-entries conversation
(reloading its persisted messages), and only when none exists create a
new conversation seeded with the greeting. -/
def selectAllEntries (st : ChatState) (db : ChatDb) (userId : Option String)
    (msgId now : String) (ts : Nat) : ChatState × ChatDb :=
  match userId with
  | none => (st, db)
  | some u =>
    let st1 := { st with selectedEntry := none, isAllEntriesMode := true }
    match latestAllEntries db u with
    | some conv =>
      ({ st1 with
          conversationId := some conv.id
          messages := loadStoredMessages conv.messages
          isLoading := false }, db)
    | none =>
      let (st2, db2, newId) := createNewConversation st1 db u none true msgId now ts
      ({ st2 with conversationId := some newId, isLoading := false }, db2)

/-- Apology substituted by both `AIService.chatWithJournal` (line 87)
and `AIService.chatWithAllJournals` (line 126). -/
def apologyChat : String :=
  "I apologize, but I'm having trouble processing your request right now. Please try again later."

/-- `AIService.chatWithJournal(entry, userMessage)` (lines 54-89). -/
def chatWithJournal (entry userMessage : String)
    (gw : Except String String) : String :=
  match gw with
  | .ok content => content
  | .error _ => apologyChat

/-- `AIService.chatWithAllJournals(entriesSummary, userMessage)`
(lines 91-128). -/
def chatWithAllJournals (entriesSummary userMessage : String)
    (gw : Except String String) : String :=
  match gw with
  | .ok content => content
  | .error _ => apologyChat

/-- The per-entry summary line built by `generateAIResponse`
(lines 250-252).  `toLocaleDateString` is abstracted as the raw
`created_at` string; the content is truncated at 200 characters with a
trailing ellipsis. -/
def entrySummary (e : JournalEntry) : String :=
  "Date: " ++ e.created_at ++ ", Mood: " ++ e.mood ++ "\nContent: " ++
    String.mk (e.content.data.take 200) ++
    (if 200 < e.content.data.length then "..." else "")

/-- The single-entry context built by `generateAIResponse`
(line 258). -/
def entryContext (e : JournalEntry) : String :=
  "Journal Entry Date: " ++ e.created_at ++ "\nMood: " ++ e.mood ++
    "\nTags: " ++ (if e.tags.isEmpty then "None" else String.intercalate ", " e.tags) ++
    "\nContent: " ++ e.content

/-- `generateAIResponse(userMessage)` (lines 239-269): pick the context
(all entries, the selected entry, or neither), call the matching
gateway wrapper, and note that every branch — including the wrappers'
own catches — returns a plain string, so this function is total and the
`catch` at line 265 is dead. -/
def generateAIResponse (st : ChatState) (cachedEntries : List JournalEntry)
    (userMessage : String) (gw : Except String String) : String :=
  if st.isAllEntriesMode then
    if cachedEntries.isEmpty then
      "I don't see any journal entries to analyze. Try adding some entries first."
    else
      chatWithAllJournals
        (String.intercalate "\n\n---\n\n" (cachedEntries.map entrySummary))
        userMessage gw
  else
    match st.selectedEntry with
    | some entry => chatWithJournal (entryContext entry) userMessage gw
    | none =>
      "I'm not sure which journal entry we're discussing. Please select an entry first."

/-- `sendMessage(text)` (lines 272-315).  The guard drops blank text
and unauthenticated calls; otherwise the user message is appended
first, then the gateway outcome `gw` determines the AI reply, which is
appended second.  `generateAIResponse` is total, so the `catch` at
line 300 (which would append the fixed "Sorry, I couldn't process your
message." reply) is dead and not modelled. -/
def sendMessage (st : ChatState) (cachedEntries : List JournalEntry)
    (text : String) (userId : Option String) (gw : Except String String)
    (msgId aiMsgId now : String) : ChatState :=
  if (trimL text.data).isEmpty || userId.isNone then st
  else
    let userMessage : ChatMessage :=
      { id := msgId, text := text, sender := .user, timestamp := now }
    let st1 := { st with messages := st.messages ++ [userMessage], isLoading := true }
    let aiResponse := generateAIResponse st1 cachedEntries text gw
    let aiMessage : ChatMessage :=
      { id := aiMsgId, text := aiResponse, sender := .ai, timestamp := now }
    { st1 with messages := st1.messages ++ [aiMessage], isLoading := false }

/-- The system notice appended by `refreshConversation` (line 460). -/
def refreshNotice : String :=
  "I've refreshed my knowledge with your latest journal entries. How can I help you now?"

/-- Replace the messages column (and bump `last_updated`) of the row
with the given id — the `update ... eq('id', conversationId)` at
lines 468-474. -/
def updateRowMessages (db : ChatDb) (convId : Nat) (sm : StoredMessages)
    (ts : Nat) : ChatDb :=
  { db with rows := db.rows.map (fun r =>
      if r.id = convId then { r with messages := sm, last_updated := ts } else r) }

/-- The tail of `refreshConversation` common to every non-migrated
call (lines 457-474): append the system notice in memory and persist
the grown list. -/
def finishRefresh (st : ChatState) (db : ChatDb) (convId : Nat)
    (msgId now : String) (ts : Nat) : ChatState × ChatDb :=
  let notice : ChatMessage :=
    { id := msgId, text := refreshNotice, sender := .ai, timestamp := now }
  let newMsgs := st.messages ++ [notice]
  ({ st with messages := newMsgs, isLoading := false },
   updateRowMessages db convId (saveMessagesStored newMsgs) ts)

/-- `refreshConversation()` (lines 423-481).  In single-entry mode with
the bound entry gone from the cached collection, the hook migrates to
all-entries mode, creates a fresh conversation, and returns early —
before the notice-appending tail.  Otherwise it reloads the bound entry
from the `journal_entries` table (`dbEntries`) when in single-entry
mode and then appends the system notice. -/
def refreshConversation (st : ChatState) (db : ChatDb)
    (userId : Option String) (cachedEntries dbEntries : List JournalEntry)
    (msgId now : String) (ts : Nat) : ChatState × ChatDb :=
  match userId, st.conversationId with
  | some u, some convId =>
    match st.isAllEntriesMode, st.selectedEntry with
    | false, some entry =>
      if cachedEntries.any (fun e => e.id = entry.id) then
        let reloaded := (dbEntries.find? (fun e => e.id = entry.id)).getD entry
        finishRefresh { st with selectedEntry := some reloaded } db convId msgId now ts
      else
        let st1 := { st with selectedEntry := none, isAllEntriesMode := true }
        let (st2, db2, newId) := createNewConversation st1 db u none true msgId now ts
        ({ st2 with conversationId := some newId, isLoading := false }, db2)
    | _, _ => finishRefresh st db convId msgId now ts
  | _, _ => (st, db)

/-! ## Statement support: reachability, invariants, fixtures -/

/-- Run a sequence of `answerCurrentQuestion` calls; each tuple carries
one call's inputs (answer text, callback presence, gateway outcome,
generated id, timestamp). -/
def runAnswers (st : SessionHookState) :
    List (String × Bool × Except String String × String × String) → SessionHookState
  | [] => st
  | (ans, hcb, gw, qid, now) :: rest =>
    runAnswers (answerCurrentQuestion st ans hcb gw qid now).state rest

/-- Hook states produced by `startNewSession` followed by any number of
`answerCurrentQuestion` calls. -/
inductive ReachableSessionState : SessionHookState → Prop where
  | start (st₀ : SessionHookState) (userId : String) (theme : ReflectionTheme)
      (gw : Except String String) (qid sid now : String) :
      ReachableSessionState (startNewSession st₀ userId theme gw qid sid now)
  | answer (st : SessionHookState) (h : ReachableSessionState st)
      (ans : String) (hcb : Bool) (gw : Except String String) (qid now : String) :
      ReachableSessionState (answerCurrentQuestion st ans hcb gw qid now).state

/-- Inductive invariant of the reflection-session hook: the derived
`currentQuestion` agrees with the session, an in-progress session has
exactly one unanswered question at the end of its list, and a completed
session has 10 questions with the index run past them. -/
def SessionStateInv (st : SessionHookState) : Prop :=
  match st.currentSession with
  | none => st.currentQuestion = none
  | some s =>
    st.currentQuestion = s.questions[s.current_question_index]? ∧
    (s.status = .in_progress →
      s.questions.length = s.current_question_index + 1 ∧ s.questions.length ≤ 10) ∧
    (s.status = .completed →
      s.questions.length = 10 ∧ s.current_question_index = 10)

/-- Fixture: a reflection theme. -/
def themeWit : ReflectionTheme :=
  { id := "theme1", name := "Courage", description := "A theme", icon := none, order := none }

/-- Fixture: fallback session for `Option.getD`. -/
def dummySession : ReflectionSession :=
  { id := ""
    user_id := ""
    theme_id := ""
    theme_name := ""
    questions := []
    current_question_index := 0
    status := .in_progress
    started_at := ""
    completed_at := none
    analysis := none }

/-- Fixture: the hook state after a successful `startNewSession`. -/
def stStartOk : SessionHookState :=
  startNewSession emptySessionState "user1" themeWit (Except.ok "First question?") "q1" "s1" "t0"

/-- Fixture: the session seeded by `stStartOk`. -/
def sessionStartOk : ReflectionSession :=
  stStartOk.currentSession.getD dummySession

/-- Fixture: nine identical answer calls with a succeeding gateway. -/
def nineCalls : List (String × Bool × Except String String × String × String) :=
  List.replicate 9 ("my answer", true, Except.ok "Next question?", "q", "t")

/-- Fixture: the hook state after `startNewSession` and nine answers
(question index 9, ten questions). -/
def stWit9 : SessionHookState :=
  runAnswers stStartOk nineCalls

/-- Fixture: the session held by `stWit9`. -/
def sessionWit9 : ReflectionSession :=
  stWit9.currentSession.getD dummySession

/-- Fixture: the analysis input of claim C1. -/
def c1Input : String :=
  "Negative patterns:\n- overthinking\n- avoidance\n\nPositive patterns:\n- resilience\n\nFinal thoughts."

/-- Fixture: an empty chat hook state. -/
def chatStateEmpty : ChatState :=
  { messages := []
    isLoading := false
    selectedEntry := none
    isAllEntriesMode := false
    conversationId := none
    isBookmarked := false }

/-- Fixture: a journal entry. -/
def entryWit : JournalEntry :=
  { id := "entry1", content := "Wrote a bit today.", mood := "calm", tags := [], created_at := "2025-01-01" }

/-- Fixture: an empty conversation table. -/
def chatDbEmpty : ChatDb :=
  { rows := [], nextId := 0 }

/-- Fixture: a single-entry conversation row bound to `entryWit`. -/
def convRow0 : ConversationRow :=
  { id := 0
    user_id := "user1"
    entry_ids := some ["entry1"]
    is_all_entries := false
    messages := saveMessagesStored []
    last_updated := 0 }

/-- Fixture: a table holding only `convRow0`. -/
def chatDb9 : ChatDb :=
  { rows := [convRow0], nextId := 1 }

/-- Fixture: a chat state bound to `convRow0` in single-entry mode. -/
def chatSt9 : ChatState :=
  { messages := []
    isLoading := false
    selectedEntry := some entryWit
    isAllEntriesMode := false
    conversationId := some 0
    isBookmarked := false }

/-- Fixture: first `selectAllEntries` call on an empty table. -/
def chatP1 : ChatState × ChatDb :=
  selectAllEntries chatStateEmpty chatDbEmpty (some "user1") "m1" "n1" 1

/-- Fixture: second `selectAllEntries` call right after the first. -/
def chatP2 : ChatState × ChatDb :=
  selectAllEntries chatP1.1 chatP1.2 (some "user1") "m2" "n2" 2

/-! ## Theorems -/

/-- An `if isEmpty` fallback never yields the empty list when the
fallback is non-empty. -/
theorem ite_isEmpty_ne_nil {α : Type} (l d : List α) (hd : d ≠ []) :
    (if l.isEmpty then d else l) ≠ [] := by
  cases l with
  | nil => simpa using hd
  | cons a as => simp

/-- An `if = ""` fallback never yields the empty string when the
fallback is non-empty. -/
theorem ite_eq_str_ne {e : String} (d : String) (hd : d ≠ "") :
    (if e = "" then d else e) ≠ "" := by
  by_cases h : e = ""
  · simpa [h] using hd
  · simp only [if_neg h]; exact h

/-- Projection of `parseAnalysisResponse` onto `negative_patterns`. -/
theorem parse_negative_eq (resp : String) :
    (parseAnalysisResponse resp).negative_patterns =
      (if (extractBulletPoints resp ["negative patterns", "patterns to address", "challenges"]).isEmpty
        then defaultAnalysis.negative_patterns
        else extractBulletPoints resp ["negative patterns", "patterns to address", "challenges"]) := rfl

/-- Projection of `parseAnalysisResponse` onto `positive_patterns`. -/
theorem parse_positive_eq (resp : String) :
    (parseAnalysisResponse resp).positive_patterns =
      (if (extractBulletPoints resp ["positive patterns", "strengths", "patterns to embrace"]).isEmpty
        then defaultAnalysis.positive_patterns
        else extractBulletPoints resp ["positive patterns", "strengths", "patterns to embrace"]) := rfl

/-- Projection of `parseAnalysisResponse` onto `affirmations`. -/
theorem parse_affirmations_eq (resp : String) :
    (parseAnalysisResponse resp).affirmations =
      (if (extractBulletPoints resp ["affirmations", "daily affirmations"]).isEmpty
        then defaultAnalysis.affirmations
        else extractBulletPoints resp ["affirmations", "daily affirmations"]) := rfl

/-- Projection of `parseAnalysisResponse` onto `actionable_steps`. -/
theorem parse_actionable_eq (resp : String) :
    (parseAnalysisResponse resp).actionable_steps =
      (if (extractBulletPoints resp ["actionable steps", "steps", "actions"]).isEmpty
        then defaultAnalysis.actionable_steps
        else extractBulletPoints resp ["actionable steps", "steps", "actions"]) := rfl

/-- Projection of `parseAnalysisResponse` onto `encouragement`. -/
theorem parse_encouragement_eq (resp : String) :
    (parseAnalysisResponse resp).encouragement =
      (if (if ((splitParas resp.data).map String.mk).getLastD "" = ""
            then "Continue your journey with courage and compassion."
            else ((splitParas resp.data).map String.mk).getLastD "") = ""
        then defaultAnalysis.encouragement
        else (if ((splitParas resp.data).map String.mk).getLastD "" = ""
            then "Continue your journey with courage and compassion."
            else ((splitParas resp.data).map String.mk).getLastD "")) := rfl

/-- Helper: the five fields of a parsed analysis are never empty. -/
theorem parse_fields_nonempty (resp : String) :
    (parseAnalysisResponse resp).negative_patterns ≠ [] ∧
    (parseAnalysisResponse resp).positive_patterns ≠ [] ∧
    (parseAnalysisResponse resp).affirmations ≠ [] ∧
    (parseAnalysisResponse resp).actionable_steps ≠ [] ∧
    (parseAnalysisResponse resp).encouragement ≠ "" := by
  refine ⟨?_, ?_, ?_, ?_, ?_⟩
  · rw [parse_negative_eq]; exact ite_isEmpty_ne_nil _ _ (by decide)
  · rw [parse_positive_eq]; exact ite_isEmpty_ne_nil _ _ (by decide)
  · rw [parse_affirmations_eq]; exact ite_isEmpty_ne_nil _ _ (by decide)
  · rw [parse_actionable_eq]; exact ite_isEmpty_ne_nil _ _ (by decide)
  · rw [parse_encouragement_eq]; exact ite_eq_str_ne _ (by decide)

/-- C2: for every input string — the empty string included — the
analysis parser is a total function returning a well-formed `Analysis`
whose five fields are all non-empty, and whenever a target section
collects zero bullet items the fixed generic fallback of
`defaultAnalysis` is substituted for that section. -/
theorem claim2_parser_total_and_nonempty (resp : String) :
    (parseAnalysisResponse resp).negative_patterns ≠ [] ∧
    (parseAnalysisResponse resp).positive_patterns ≠ [] ∧
    (parseAnalysisResponse resp).affirmations ≠ [] ∧
    (parseAnalysisResponse resp).actionable_steps ≠ [] ∧
    (parseAnalysisResponse resp).encouragement ≠ "" ∧
    (extractBulletPoints resp ["negative patterns", "patterns to address", "challenges"] = [] →
      (parseAnalysisResponse resp).negative_patterns = defaultAnalysis.negative_patterns) ∧
    (extractBulletPoints resp ["positive patterns", "strengths", "patterns to embrace"] = [] →
      (parseAnalysisResponse resp).positive_patterns = defaultAnalysis.positive_patterns) ∧
    (extractBulletPoints resp ["affirmations", "daily affirmations"] = [] →
      (parseAnalysisResponse resp).affirmations = defaultAnalysis.affirmations) ∧
    (extractBulletPoints resp ["actionable steps", "steps", "actions"] = [] →
      (parseAnalysisResponse resp).actionable_steps = defaultAnalysis.actionable_steps) := by
  obtain ⟨h1, h2, h3, h4, h5⟩ := parse_fields_nonempty resp
  refine ⟨h1, h2, h3, h4, h5, ?_, ?_, ?_, ?_⟩
  · intro h; rw [parse_negative_eq, h]; rfl
  · intro h; rw [parse_positive_eq, h]; rfl
  · intro h; rw [parse_affirmations_eq, h]; rfl
  · intro h; rw [parse_actionable_eq, h]; rfl

/-- C2 (witness): the parser of the empty string keeps a non-empty
encouragement. -/
theorem claim2_witness :
    (parseAnalysisResponse "").encouragement ≠ "" :=
  (claim2_parser_total_and_nonempty "").2.2.2.2.1

/-- C1 (counterexample): on the documented input the parser does not
return `negativePatterns = ["overthinking", "avoidance"]` — the
positive section's bullet leaks into the negative list, because the
stop check only compares a bullet line against the non-primary headers
of the section being collected, never against the other sections'
headers. -/
theorem claim1_counterexample :
    ¬((parseAnalysisResponse c1Input).negative_patterns = ["overthinking", "avoidance"] ∧
      (parseAnalysisResponse c1Input).positive_patterns = ["resilience"] ∧
      (parseAnalysisResponse c1Input).encouragement = "Final thoughts.") := by
  decide

/-- C1 (amended): on the documented input the parser returns
`negativePatterns = ["overthinking", "avoidance", "resilience"]` — the
later section's bullet is absorbed into the earlier section's list —
while `positivePatterns = ["resilience"]` and
`encouragement = "Final thoughts."` hold as documented. -/
theorem claim1_amended :
    (parseAnalysisResponse c1Input).negative_patterns = ["overthinking", "avoidance", "resilience"] ∧
    (parseAnalysisResponse c1Input).positive_patterns = ["resilience"] ∧
    (parseAnalysisResponse c1Input).encouragement = "Final thoughts." := by
  decide

/-- Helper: with no active session or question, `answerCurrentQuestion`
only sets the error string. -/
theorem answer_no_question (st : SessionHookState) (ans : String) (hcb : Bool)
    (gw : Except String String) (qid now : String)
    (h : st.currentSession = none ∨ st.currentQuestion = none) :
    answerCurrentQuestion st ans hcb gw qid now =
      { state := { st with error := some "No active question to answer" }
        usedGateway := false
        completionCallback := none } := by
  rcases h with h | h
  · simp [answerCurrentQuestion, h]
  · cases hs : st.currentSession with
    | none => simp [answerCurrentQuestion, hs]
    | some s => simp [answerCurrentQuestion, hs, h]

/-- C10: calling `answerCurrentQuestion` with no active question —
no session, or a completed session whose derived current question is
null — sets the session-level error string and leaves every other part
of the hook state unchanged: the session (questions, index, status,
analysis) is untouched, no gateway call is issued, and no completion
callback fires. -/
theorem claim10_answer_without_active_question (st : SessionHookState)
    (ans : String) (hcb : Bool) (gw : Except String String) (qid now : String)
    (h : st.currentSession = none ∨ st.currentQuestion = none) :
    answerCurrentQuestion st ans hcb gw qid now =
      { state := { st with error := some "No active question to answer" }
        usedGateway := false
        completionCallback := none } :=
  answer_no_question st ans hcb gw qid now h

/-- C10 (witness): the guard fires on the initial hook state. -/
theorem claim10_witness :
    (emptySessionState.currentSession = none ∨ emptySessionState.currentQuestion = none) ∧
    answerCurrentQuestion emptySessionState "x" false (Except.ok "r") "q" "t" =
      { state := { emptySessionState with error := some "No active question to answer" }
        usedGateway := false
        completionCallback := none } :=
  ⟨Or.inl rfl,
    claim10_answer_without_active_question emptySessionState "x" false
      (Except.ok "r") "q" "t" (Or.inl rfl)⟩

/-- Helper: the trimmed dialog apology is itself. -/
theorem trim_apology_dialog :
    extractQuestionFromAIResponse apologyReflectionDialog = apologyReflectionDialog := by
  decide

/-- Helper: reduce `applyQuestionSync` once the session is known. -/
theorem applyQuestionSync_some (st : SessionHookState) (s : ReflectionSession)
    (hst : st.currentSession = some s) :
    applyQuestionSync st =
      (if s.current_question_index < s.questions.length
        then { st with currentQuestion := s.questions[s.current_question_index]? }
        else { st with currentQuestion := none, hasCompletedAllQuestions := true }) := by
  simp [applyQuestionSync, hst]

/-- C3 (counterexample): a gateway failure during `startNewSession`
does not surface a session-level error and does not leave the session
state unchanged — `AIService` swallows the failure and returns its
apology string, which becomes the seeded first question of a freshly
created session. -/
theorem claim3_counterexample :
    (startNewSession emptySessionState "user1" themeWit (Except.error "network failure") "q1" "s1" "t0").error = none ∧
    (startNewSession emptySessionState "user1" themeWit (Except.error "network failure") "q1" "s1" "t0").currentSession ≠
      emptySessionState.currentSession := by
  decide

/-- C3 (amended): a Gateway failure never reaches the hook's catch —
the `AIService` wrappers catch it and return a fixed apology string,
which the hook treats as a normal response.  During `start` a fresh
session is created whose single question is the apology text; during a
non-final `answer` the apology text is appended as the next question
and the index advances; in both cases the session-level error stays
unset, so the failed step is not retryable in place. -/
theorem claim3_amended (st₀ st : SessionHookState) (userId : String)
    (theme : ReflectionTheme) (e : String) (qid sid now : String)
    (s : ReflectionSession) (ans : String) (hcb : Bool)
    (hsess : st.currentSession = some s)
    (hq : st.currentQuestion.isSome = true)
    (hidx : s.current_question_index ≠ 9)
    (hlt : s.current_question_index < s.questions.length) :
    ((startNewSession st₀ userId theme (Except.error e) qid sid now).error = none ∧
      (startNewSession st₀ userId theme (Except.error e) qid sid now).currentSession.map
        (fun s' => s'.questions.map (fun q => q.question)) = some [apologyReflectionQuestions]) ∧
    ((answerCurrentQuestion st ans hcb (Except.error e) qid now).state.error = none ∧
      ∃ s', (answerCurrentQuestion st ans hcb (Except.error e) qid now).state.currentSession = some s' ∧
        s'.questions.length = s.questions.length + 1 ∧
        s'.current_question_index = s.current_question_index + 1 ∧
        s'.questions.getLast?.map (fun q => q.question) = some apologyReflectionDialog) := by
  refine ⟨⟨rfl, rfl⟩, ?_⟩
  obtain ⟨q, hq2⟩ := Option.isSome_iff_exists.mp hq
  obtain ⟨qq, hget⟩ : ∃ qq, s.questions[s.current_question_index]? = some qq :=
    ⟨_, List.getElem?_eq_getElem hlt⟩
  simp only [answerCurrentQuestion, hsess, hq2, hget]
  rw [if_neg hidx]
  simp only [continueReflectionDialog, applyQuestionSync]
  split
  · refine ⟨rfl, ⟨_, rfl, ?_, rfl, ?_⟩⟩
    · simp
    · rw [List.getLast?_concat]
      simp [trim_apology_dialog]
  · next h =>
      exfalso
      simp at h
      omega

/-- C3 (witness): the amended failure semantics at the state after a
successful `start`. -/
theorem claim3_witness :
    (answerCurrentQuestion stStartOk "my answer" true (Except.error "net") "q2" "t1").state.error = none :=
  (claim3_amended emptySessionState stStartOk "user1" themeWit "net" "q2" "s2" "t1"
    sessionStartOk "my answer" true (by decide) (by decide) (by decide) (by decide)).2.1

/-- Helper: once the derived current question is gone, any sequence of
further `answerCurrentQuestion` calls leaves the session untouched. -/
theorem runAnswers_no_question
    (calls : List (String × Bool × Except String String × String × String)) :
    ∀ st : SessionHookState, st.currentQuestion = none →
      (runAnswers st calls).currentSession = st.currentSession ∧
      (runAnswers st calls).currentQuestion = none := by
  induction calls with
  | nil => intro st h; exact ⟨rfl, h⟩
  | cons c rest ih =>
    obtain ⟨ans, hcb, gw, qid, now⟩ := c
    intro st h
    rw [runAnswers, answer_no_question st ans hcb gw qid now (Or.inr h)]
    exact ih _ h

/-- C4: when the current question index is 9 (the 10th question) and
ten questions are present, `answerCurrentQuestion` records the answer
on question 9, transitions the session to `completed` with
`completed_at` set, populates the analysis — all five fields
non-empty — in the same transition, advances the index to 10, fires
the completion callback exactly when one was supplied, and the session
(hence its analysis) is never altered by any later call. -/
theorem claim4_tenth_answer_completes (st : SessionHookState) (s : ReflectionSession)
    (ans : String) (hcb : Bool) (gw : Except String String) (qid now : String)
    (hsess : st.currentSession = some s)
    (hq : st.currentQuestion.isSome = true)
    (hidx : s.current_question_index = 9)
    (hlen : s.questions.length = 10) :
    ∃ s', (answerCurrentQuestion st ans hcb gw qid now).state.currentSession = some s' ∧
      s'.status = .completed ∧
      s'.completed_at = some now ∧
      s'.current_question_index = 10 ∧
      s'.questions.length = 10 ∧
      s'.questions[9]?.map (fun q => q.answer) = some (some ans) ∧
      (∃ a, s'.analysis = some a ∧
        a.negative_patterns ≠ [] ∧ a.positive_patterns ≠ [] ∧ a.affirmations ≠ [] ∧
        a.actionable_steps ≠ [] ∧ a.encouragement ≠ "") ∧
      ((answerCurrentQuestion st ans hcb gw qid now).completionCallback =
        if hcb then some s' else none) ∧
      (∀ calls, (runAnswers (answerCurrentQuestion st ans hcb gw qid now).state calls).currentSession = some s') := by
  obtain ⟨q, hq2⟩ := Option.isSome_iff_exists.mp hq
  have hlt : s.current_question_index < s.questions.length := by omega
  obtain ⟨qq, hget⟩ : ∃ qq, s.questions[s.current_question_index]? = some qq :=
    ⟨_, List.getElem?_eq_getElem hlt⟩
  simp only [answerCurrentQuestion, hsess, hq2, hget]
  rw [if_pos hidx]
  simp only [applyQuestionSync]
  split
  · next hcond =>
    exfalso
    simp [hlen, hidx] at hcond
  · refine ⟨_, rfl, rfl, rfl, by simp [hidx], by simp [hlen], ?_, ?_, rfl, ?_⟩
    · simp [List.getElem?_set, hidx, hlen]
    · exact ⟨_, rfl, (parse_fields_nonempty _).1, (parse_fields_nonempty _).2.1,
        (parse_fields_nonempty _).2.2.1, (parse_fields_nonempty _).2.2.2.1,
        (parse_fields_nonempty _).2.2.2.2⟩
    · intro calls
      exact (runAnswers_no_question calls _ rfl).1

/-- C4 (witness): after nine answered questions the tenth answer
completes the session. -/
theorem claim4_witness :
    ((answerCurrentQuestion stWit9 "final answer" true (Except.ok "Analysis") "q10" "t10").state.currentSession.map
      (fun s' => s'.status)) = some SessionStatus.completed := by
  obtain ⟨s', hs, hstat, _⟩ :=
    claim4_tenth_answer_completes stWit9 sessionWit9 "final answer" true
      (Except.ok "Analysis") "q10" "t10" (by decide) (by decide) (by decide) (by decide)
  rw [hs]
  simp [hstat]

/-- Helper: `startNewSession` establishes the session invariant. -/
theorem inv_start (st₀ : SessionHookState) (userId : String) (theme : ReflectionTheme)
    (gw : Except String String) (qid sid now : String) :
    SessionStateInv (startNewSession st₀ userId theme gw qid sid now) := by
  simp [SessionStateInv, startNewSession, applyQuestionSync]

/-- Helper: `answerCurrentQuestion` preserves the session invariant on
both of its branches and on the guarded no-op. -/
theorem inv_answer (st : SessionHookState) (ans : String) (hcb : Bool)
    (gw : Except String String) (qid now : String)
    (h : SessionStateInv st) :
    SessionStateInv (answerCurrentQuestion st ans hcb gw qid now).state := by
  cases hs : st.currentSession with
  | none =>
    have hq : st.currentQuestion = none := by
      unfold SessionStateInv at h; rw [hs] at h; exact h
    rw [answer_no_question st ans hcb gw qid now (Or.inl hs)]
    simp only [SessionStateInv, hs]
    exact hq
  | some s =>
    have hinv := h
    unfold SessionStateInv at hinv
    rw [hs] at hinv
    obtain ⟨hq1, hip, hcomp⟩ := hinv
    cases hqq : st.currentQuestion with
    | none =>
      rw [answer_no_question st ans hcb gw qid now (Or.inr hqq)]
      simp only [SessionStateInv, hs]
      refine ⟨?_, hip, hcomp⟩
      exact hq1
    | some q =>
      have hlt : s.current_question_index < s.questions.length := by
        rw [hqq] at hq1
        obtain ⟨hlt, _⟩ := List.getElem?_eq_some_iff.mp hq1.symm
        exact hlt
      have hst : s.status = .in_progress := by
        cases hstat : s.status with
        | in_progress => rfl
        | completed =>
          exfalso
          obtain ⟨hl, hi⟩ := hcomp hstat
          omega
      obtain ⟨hlen1, hlen10⟩ := hip hst
      obtain ⟨qq, hget⟩ : ∃ qq, s.questions[s.current_question_index]? = some qq :=
        ⟨_, List.getElem?_eq_getElem hlt⟩
      by_cases hidx : s.current_question_index = 9
      · simp only [answerCurrentQuestion, hs, hqq, hget]
        rw [if_pos hidx]
        simp only [applyQuestionSync]
        split
        · next hcond =>
          exfalso
          simp at hcond
          omega
        · simp only [SessionStateInv]
          refine ⟨?_, ?_, ?_⟩
          · symm
            apply List.getElem?_eq_none
            simp
            omega
          · intro hcontra
            simp at hcontra
          · intro _
            constructor
            · simp
              omega
            · omega
      · simp only [answerCurrentQuestion, hs, hqq, hget]
        rw [if_neg hidx]
        simp only [applyQuestionSync]
        split
        · next hcond =>
          simp only [SessionStateInv]
          refine ⟨trivial, ?_, ?_⟩
          · intro _
            constructor
            · simp
              omega
            · simp
              omega
          · intro hcontra
            simp [hst] at hcontra
        · next hcond =>
          exfalso
          simp at hcond
          omega

/-- Helper: every reachable hook state satisfies the session
invariant. -/
theorem reachable_inv (st : SessionHookState) (h : ReachableSessionState st) :
    SessionStateInv st := by
  induction h with
  | start st₀ userId theme gw qid sid now => exact inv_start st₀ userId theme gw qid sid now
  | answer st h ans hcb gw qid now ih => exact inv_answer st ans hcb gw qid now ih

/-- C5: in every state reachable by `startNewSession` and any sequence
of `answerCurrentQuestion` calls (both the completion branch and the
next-question branch included), the session's question list holds at
most 10 questions and the current question index never exceeds the
question list's length. -/
theorem claim5_session_invariant (st : SessionHookState)
    (h : ReachableSessionState st) (s : ReflectionSession)
    (hs : st.currentSession = some s) :
    s.questions.length ≤ 10 ∧ s.current_question_index ≤ s.questions.length := by
  have hinv := reachable_inv st h
  unfold SessionStateInv at hinv
  rw [hs] at hinv
  obtain ⟨h1, h2, h3⟩ := hinv
  cases hstat : s.status with
  | in_progress => obtain ⟨ha, hb⟩ := h2 hstat; omega
  | completed => obtain ⟨ha, hb⟩ := h3 hstat; omega

/-- C5 (witness): the invariant at the state reached by one successful
`startNewSession`. -/
theorem claim5_witness :
    sessionStartOk.questions.length ≤ 10 ∧
    sessionStartOk.current_question_index ≤ sessionStartOk.questions.length :=
  claim5_session_invariant stStartOk
    (ReachableSessionState.start emptySessionState "user1" themeWit
      (Except.ok "First question?") "q1" "s1" "t0")
    sessionStartOk (by decide)

/-- C6 (counterexample): `sendMessage` on a non-empty but whitespace-only
text is a guarded no-op — nothing is appended, contradicting the claim
that every non-empty text grows the list by exactly two messages. -/
theorem claim6_counterexample :
    (" " : String) ≠ "" ∧
    sendMessage chatStateEmpty [] " " (some "user1") (Except.ok "reply") "m1" "m2" "t1" = chatStateEmpty := by
  decide

/-- Helper: the AI reply of `generateAIResponse`, written out by cases —
the gateway content on success and the fixed apology on failure when a
context exists (all-entries mode with at least one entry, or a selected
entry), and a fixed canned message, independent of the gateway outcome,
in the two no-context states. -/
theorem generateAIResponse_cases (st : ChatState) (cached : List JournalEntry)
    (userMessage : String) (gw : Except String String) :
    generateAIResponse st cached userMessage gw =
      (if st.isAllEntriesMode then
        if cached.isEmpty then
          "I don't see any journal entries to analyze. Try adding some entries first."
        else
          match gw with
          | .ok content => content
          | .error _ => apologyChat
      else
        match st.selectedEntry with
        | some _ =>
          match gw with
          | .ok content => content
          | .error _ => apologyChat
        | none =>
          "I'm not sure which journal entry we're discussing. Please select an entry first.") := by
  cases gw <;> rfl

/-- C6 (amended): for every message text that is non-blank after
trimming (and an authenticated user), `sendMessage` appends the user's
message first and exactly one AI message second, so the list grows by
exactly two messages in user-then-AI order and the user's message is
never dropped.  The appended AI message's text is pinned in every
case: when a context exists (all-entries mode with at least one cached
entry, or a selected entry) it is the gateway reply on success and the
fixed `AIService` apology on gateway failure; in all-entries mode with
no entries it is the fixed no-entries message, and in single-entry mode
with no selected entry the fixed no-entry-selected message — these last
two regardless of the gateway outcome. -/
theorem claim6_amended (st : ChatState) (cached : List JournalEntry)
    (text : String) (u : String) (gw : Except String String)
    (msgId aiMsgId now : String)
    (htext : (trimL text.data).isEmpty = false) :
    (sendMessage st cached text (some u) gw msgId aiMsgId now).messages =
      st.messages ++
        [{ id := msgId, text := text, sender := .user, timestamp := now },
         { id := aiMsgId
           text :=
             if st.isAllEntriesMode then
               if cached.isEmpty then
                 "I don't see any journal entries to analyze. Try adding some entries first."
               else
                 match gw with
                 | .ok content => content
                 | .error _ => apologyChat
             else
               match st.selectedEntry with
               | some _ =>
                 match gw with
                 | .ok content => content
                 | .error _ => apologyChat
               | none =>
                 "I'm not sure which journal entry we're discussing. Please select an entry first."
           sender := .ai
           timestamp := now }] := by
  simp only [sendMessage, htext]
  simp [generateAIResponse_cases]

/-- C6 (witness): a successful send grows the message list by two. -/
theorem claim6_witness :
    (sendMessage chatStateEmpty [] "Hello" (some "user1") (Except.ok "Hi") "m1" "m2" "t1").messages.length =
      chatStateEmpty.messages.length + 2 := by
  rw [claim6_amended chatStateEmpty [] "Hello" "user1" (Except.ok "Hi") "m1" "m2" "t1" (by decide)]
  simp

/-- Helper: the latest-row scan returns `none` exactly on the empty
list. -/
theorem pickLatest_eq_none_iff (l : List ConversationRow) :
    pickLatest l = none ↔ l = [] := by
  cases l with
  | nil => simp [pickLatest]
  | cons r rest =>
    simp only [pickLatest]
    cases h : pickLatest rest with
    | none => simp
    | some b => split <;> (try split) <;> simp_all

/-- C7: `selectAllEntries` reuses the most-recently-updated all-entries
conversation of the user and creates a new one — seeded with the AI
greeting — only when none exists; hence two consecutive calls with no
intervening state change yield the same conversation id and the second
call never inserts a row. -/
theorem claim7_select_all_entries_reuses (st : ChatState) (db : ChatDb) (u : String)
    (m1 n1 m2 n2 : String) (t1 t2 : Nat)
    (st1 : ChatState) (db1 : ChatDb) (st2 : ChatState) (db2 : ChatDb)
    (h1 : selectAllEntries st db (some u) m1 n1 t1 = (st1, db1))
    (h2 : selectAllEntries st1 db1 (some u) m2 n2 t2 = (st2, db2)) :
    st2.conversationId = st1.conversationId ∧
    st1.conversationId.isSome = true ∧
    db2 = db1 ∧
    (latestAllEntries db u = none →
      db1.rows.length = db.rows.length + 1 ∧ st1.messages = [initialChatMessage true m1 n1]) ∧
    (∀ r, latestAllEntries db u = some r → st1.conversationId = some r.id ∧ db1 = db) := by
  cases hl : latestAllEntries db u with
  | some r =>
    simp only [selectAllEntries, hl] at h1
    rw [Prod.mk.injEq] at h1
    obtain ⟨hst1, hdb1⟩ := h1
    subst hst1
    subst hdb1
    simp only [selectAllEntries, hl] at h2
    rw [Prod.mk.injEq] at h2
    obtain ⟨hst2, hdb2⟩ := h2
    subst hst2
    subst hdb2
    refine ⟨rfl, rfl, rfl, ?_, ?_⟩
    · intro hno
      simp at hno
    · intro r2 hr2
      obtain rfl := Option.some.inj hr2
      exact ⟨rfl, rfl⟩
  | none =>
    simp only [selectAllEntries, hl, createNewConversation] at h1
    rw [Prod.mk.injEq] at h1
    obtain ⟨hst1, hdb1⟩ := h1
    subst hst1
    subst hdb1
    have hfilter : db.rows.filter (fun r => r.user_id = u && r.is_all_entries) = [] := by
      have := (pickLatest_eq_none_iff (db.rows.filter (fun r => r.user_id = u && r.is_all_entries))).mp
      exact this hl
    have hl2 : latestAllEntries
        { rows := db.rows ++
            [{ id := db.nextId, user_id := u, entry_ids := none, is_all_entries := true,
               messages := saveMessagesStored [initialChatMessage true m1 n1], last_updated := t1 }],
          nextId := db.nextId + 1 } u =
        some { id := db.nextId, user_id := u, entry_ids := none, is_all_entries := true,
               messages := saveMessagesStored [initialChatMessage true m1 n1], last_updated := t1 } := by
      simp [latestAllEntries, List.filter_append, hfilter, pickLatest]
    simp only [selectAllEntries, hl2] at h2
    rw [Prod.mk.injEq] at h2
    obtain ⟨hst2, hdb2⟩ := h2
    subst hst2
    subst hdb2
    refine ⟨rfl, rfl, rfl, ?_, ?_⟩
    · intro _
      simp
    · intro r2 hr2
      simp at hr2

set_option maxRecDepth 8192 in
/-- C7 (witness): two consecutive `selectAllEntries` calls starting
from an empty table agree on the conversation id. -/
theorem claim7_witness :
    chatP2.1.conversationId = chatP1.1.conversationId :=
  (claim7_select_all_entries_reuses chatStateEmpty chatDbEmpty "user1"
    "m1" "n1" "m2" "n2" 1 2 chatP1.1 chatP1.2 chatP2.1 chatP2.2
    (by decide) (by decide)).1

/-- C9 (counterexample): on a single-entry conversation whose bound
entry is gone, `refreshConversation` returns right after creating the
new all-entries conversation — the resulting message list is just the
seeded greeting, with no refresh notice appended, contradicting the
claim that a system notice is appended in every call. -/
theorem claim9_counterexample :
    (refreshConversation chatSt9 chatDb9 (some "user1") [] [] "m" "n" 5).1.messages =
      [initialChatMessage true "m" "n"] ∧
    (initialChatMessage true "m" "n").text ≠ refreshNotice := by
  decide

/-- C9 (amended): on a single-entry conversation whose bound entry id
is absent from the cached entry collection, `refreshConversation`
switches to all-entries mode and binds a freshly created conversation
id (distinct from the previous one), but its message list is replaced
by the seeded greeting and no refresh notice is appended — the notice
is appended only on the non-migrated path (here: all-entries mode). -/
theorem claim9_amended (st : ChatState) (db : ChatDb) (u : String)
    (cached dbEntries : List JournalEntry) (msgId now : String) (ts : Nat)
    (cid : Nat)
    (hcid : st.conversationId = some cid)
    (hfresh : cid < db.nextId) :
    (st.isAllEntriesMode = false → ∀ entry, st.selectedEntry = some entry →
      cached.any (fun e => e.id = entry.id) = false →
      (refreshConversation st db (some u) cached dbEntries msgId now ts).1.isAllEntriesMode = true ∧
      (refreshConversation st db (some u) cached dbEntries msgId now ts).1.conversationId = some db.nextId ∧
      (refreshConversation st db (some u) cached dbEntries msgId now ts).1.conversationId ≠ st.conversationId ∧
      (refreshConversation st db (some u) cached dbEntries msgId now ts).1.messages =
        [initialChatMessage true msgId now]) ∧
    (st.isAllEntriesMode = true →
      (refreshConversation st db (some u) cached dbEntries msgId now ts).1.messages =
        st.messages ++ [{ id := msgId, text := refreshNotice, sender := Sender.ai, timestamp := now }]) := by
  constructor
  · intro him entry hsel hgone
    simp only [refreshConversation, hcid, him, hsel, hgone, createNewConversation]
    refine ⟨rfl, rfl, ?_, rfl⟩
    intro hco
    have h2 := Option.some.inj (show some db.nextId = some cid from hco)
    omega
  · intro him
    simp only [refreshConversation, hcid, him, finishRefresh]

/-- C9 (witness): the migration outcome at a concrete deleted-entry
state. -/
theorem claim9_witness :
    (refreshConversation chatSt9 chatDb9 (some "user1") [] [] "m" "n" 5).1.isAllEntriesMode = true := by
  obtain ⟨hdel, _⟩ := claim9_amended chatSt9 chatDb9 "user1" [] [] "m" "n" 5 0 (by decide) (by decide)
  exact (hdel (by decide) entryWit (by decide) (by decide)).1

/-- Helper: reading a hex digit back recovers the value it names. -/
theorem hexVal_hexDigitChar (m : Nat) (h : m < 16) :
    hexVal (hexDigitChar m) = some m := by
  interval_cases m <;> rfl

/-- Helper: the string parser passes an unescaped character through. -/
theorem parse_plain (c : Char) (h1 : ¬c = '"') (h2 : ¬c = '\\') (L : List Char) :
    parseJStringBody (c :: L) =
      (parseJStringBody L).map (fun p => (c :: p.1, p.2)) := by
  rw [parseJStringBody.eq_def]
  simp only [if_neg h1, if_neg h2]

/-- Helper: the string parser decodes a `\u` escape from its four hex
digits. -/
theorem parse_u (h1 h2 h3 h4 : Char) (v1 v2 v3 v4 : Nat)
    (e1 : hexVal h1 = some v1) (e2 : hexVal h2 = some v2)
    (e3 : hexVal h3 = some v3) (e4 : hexVal h4 = some v4) (L : List Char) :
    parseJStringBody ('\\' :: 'u' :: h1 :: h2 :: h3 :: h4 :: L) =
      (parseJStringBody L).map
        (fun p => (Char.ofNat (((v1 * 16 + v2) * 16 + v3) * 16 + v4) :: p.1, p.2)) := by
  simp [parseJStringBody, e1, e2, e3, e4]

/-- Helper: the string parser decodes a two-character escape. -/
theorem parse_esc2 (e c' : Char) (hne : ¬e = 'u') (hdec : escDecode e = some c') (L : List Char) :
    parseJStringBody ('\\' :: e :: L) =
      (parseJStringBody L).map (fun p => (c' :: p.1, p.2)) := by
  rw [parseJStringBody.eq_def]
  dsimp only
  rw [if_neg hne, hdec]
  rw [if_neg (show ¬('\\' : Char) = '"' by decide), if_pos (rfl : ('\\' : Char) = '\\')]

/-- Helper: the string parser stops at the closing quote. -/
theorem parse_quote (rest : List Char) :
    parseJStringBody ('"' :: rest) = some ([], rest) := by
  rw [parseJStringBody.eq_def]
  dsimp only
  rw [if_pos (rfl : ('"' : Char) = '"')]

/-- Helper: parsing the escaped body of a string literal recovers the
original characters and leaves the rest of the input untouched. -/
theorem parseJStringBody_encodeBody (s : List Char) (rest : List Char) :
    parseJStringBody (encodeStringBody s ('"' :: rest)) = some (s, rest) := by
  induction s with
  | nil => exact parse_quote rest
  | cons c s' ih =>
    show parseJStringBody (escapeChar c ++ encodeStringBody s' ('"' :: rest)) = some (c :: s', rest)
    by_cases h1 : c = '"'
    · subst h1
      rw [show escapeChar '"' ++ encodeStringBody s' ('"' :: rest) =
        '\\' :: '"' :: encodeStringBody s' ('"' :: rest) from rfl]
      rw [parse_esc2 '"' '"' (by decide) (by decide), ih]
      rfl
    by_cases h2 : c = '\\'
    · subst h2
      rw [show escapeChar '\\' ++ encodeStringBody s' ('"' :: rest) =
        '\\' :: '\\' :: encodeStringBody s' ('"' :: rest) from rfl]
      rw [parse_esc2 '\\' '\\' (by decide) (by decide), ih]
      rfl
    by_cases h3 : c = '\n'
    · subst h3
      rw [show escapeChar '\n' ++ encodeStringBody s' ('"' :: rest) =
        '\\' :: 'n' :: encodeStringBody s' ('"' :: rest) from rfl]
      rw [parse_esc2 'n' '\n' (by decide) (by decide), ih]
      rfl
    by_cases h4 : c = '\t'
    · subst h4
      rw [show escapeChar '\t' ++ encodeStringBody s' ('"' :: rest) =
        '\\' :: 't' :: encodeStringBody s' ('"' :: rest) from rfl]
      rw [parse_esc2 't' '\t' (by decide) (by decide), ih]
      rfl
    by_cases h5 : c = '\r'
    · subst h5
      rw [show escapeChar '\r' ++ encodeStringBody s' ('"' :: rest) =
        '\\' :: 'r' :: encodeStringBody s' ('"' :: rest) from rfl]
      rw [parse_esc2 'r' '\r' (by decide) (by decide), ih]
      rfl
    by_cases h6 : c = '\x08'
    · subst h6
      rw [show escapeChar '\x08' ++ encodeStringBody s' ('"' :: rest) =
        '\\' :: 'b' :: encodeStringBody s' ('"' :: rest) from rfl]
      rw [parse_esc2 'b' '\x08' (by decide) (by decide), ih]
      rfl
    by_cases h7 : c = '\x0c'
    · subst h7
      rw [show escapeChar '\x0c' ++ encodeStringBody s' ('"' :: rest) =
        '\\' :: 'f' :: encodeStringBody s' ('"' :: rest) from rfl]
      rw [parse_esc2 'f' '\x0c' (by decide) (by decide), ih]
      rfl
    by_cases h8 : c.toNat < 32
    · have hesc : escapeChar c =
          ['\\', 'u', '0', '0', hexDigitChar (c.toNat / 16), hexDigitChar (c.toNat % 16)] := by
        unfold escapeChar
        rw [if_neg h1, if_neg h2, if_neg h3, if_neg h4, if_neg h5, if_neg h6, if_neg h7, if_pos h8]
      rw [hesc]
      rw [show ['\\', 'u', '0', '0', hexDigitChar (c.toNat / 16), hexDigitChar (c.toNat % 16)] ++
          encodeStringBody s' ('"' :: rest) =
        '\\' :: 'u' :: '0' :: '0' :: hexDigitChar (c.toNat / 16) :: hexDigitChar (c.toNat % 16) ::
          encodeStringBody s' ('"' :: rest) from rfl]
      rw [parse_u '0' '0' (hexDigitChar (c.toNat / 16)) (hexDigitChar (c.toNat % 16))
        0 0 (c.toNat / 16) (c.toNat % 16) rfl rfl
        (hexVal_hexDigitChar _ (by omega)) (hexVal_hexDigitChar _ (by omega))]
      rw [ih]
      have hv : ((0 * 16 + 0) * 16 + c.toNat / 16) * 16 + c.toNat % 16 = c.toNat := by omega
      rw [hv, Char.ofNat_toNat]
      rfl
    · have hesc : escapeChar c = [c] := by
        unfold escapeChar
        rw [if_neg h1, if_neg h2, if_neg h3, if_neg h4, if_neg h5, if_neg h6, if_neg h7, if_neg h8]
      rw [hesc]
      rw [show [c] ++ encodeStringBody s' ('"' :: rest) = c :: encodeStringBody s' ('"' :: rest) from rfl]
      rw [parse_plain c h1 h2, ih]
      rfl

/-- Helper: a literal token consumes itself. -/
theorem expectChars_append (tok r : List Char) :
    expectChars tok (tok ++ r) = some r := by
  induction tok with
  | nil => rfl
  | cons t ts ih => simp [expectChars, ih]

/-- Helper: the sender spelling round-trips. -/
theorem senderOfName_senderName (s : Sender) :
    senderOfName (senderName s).data = some s := by
  cases s <;> rfl

/-- Helper: parsing one serialized message object recovers the message
and leaves the rest of the input untouched. -/
theorem parseMessageObj_encode (m : ChatMessage) (rest : List Char) :
    parseMessageObj (encodeMessage m rest) = some (m, rest) := by
  have h1 : encodeMessage m rest =
      ('\x7b' :: ("\"id\":".data ++ ['"'])) ++
        (encodeStringBody m.id.data ('"' ::
          ((',' :: ("\"text\":".data ++ ['"'])) ++
            (encodeStringBody m.text.data ('"' ::
              ((',' :: ("\"sender\":".data ++ ['"'])) ++
                (encodeStringBody (senderName m.sender).data ('"' ::
                  ((',' :: ("\"timestamp\":".data ++ ['"'])) ++
                    (encodeStringBody m.timestamp.data ('"' ::
                      ('\x7d' :: rest)))))))))))) := by
    simp [encodeMessage, encodeJString]
  rw [h1]
  simp only [parseMessageObj, expectChars_append, parseJStringBody_encodeBody,
    senderOfName_senderName, Option.bind_eq_bind, Option.some_bind]
  rfl

/-- Helper: the encoded body of a string never shrinks the stream. -/
theorem encodeStringBody_length (s r : List Char) :
    r.length ≤ (encodeStringBody s r).length := by
  induction s with
  | nil => simp [encodeStringBody]
  | cons c s' ih =>
    have h := ih
    simp only [encodeStringBody, List.length_append]
    omega

/-- Helper: a string literal adds at least its two quotes. -/
theorem encodeJString_length (s r : List Char) :
    r.length + 2 ≤ (encodeJString s r).length := by
  have h := encodeStringBody_length s ('"' :: r)
  simp only [encodeJString, List.length_cons] at *
  omega

/-- Helper: one serialized message adds at least one character. -/
theorem encodeMessage_length (m : ChatMessage) (r : List Char) :
    r.length + 1 ≤ (encodeMessage m r).length := by
  have e4 := encodeJString_length m.timestamp.data ('\x7d' :: r)
  have e3 := encodeJString_length (senderName m.sender).data
      (',' :: ("\"timestamp\":".data ++ encodeJString m.timestamp.data ('\x7d' :: r)))
  have e2 := encodeJString_length m.text.data
      (',' :: ("\"sender\":".data ++ encodeJString (senderName m.sender).data
        (',' :: ("\"timestamp\":".data ++ encodeJString m.timestamp.data ('\x7d' :: r)))))
  have e1 := encodeJString_length m.id.data
      (',' :: ("\"text\":".data ++ encodeJString m.text.data
        (',' :: ("\"sender\":".data ++ encodeJString (senderName m.sender).data
          (',' :: ("\"timestamp\":".data ++ encodeJString m.timestamp.data ('\x7d' :: r)))))))
  simp only [encodeMessage, List.length_cons, List.length_append] at *
  omega

/-- Helper: the serialized tail is at least one character per
message. -/
theorem encodeMessagesTail_length (ms : List ChatMessage) (r : List Char) :
    ms.length + r.length ≤ (encodeMessagesTail ms r).length := by
  induction ms generalizing r with
  | nil => simp [encodeMessagesTail]
  | cons m ms' ih =>
    have h1 := encodeMessage_length m (encodeMessagesTail ms' r)
    have h2 := ih r
    simp only [encodeMessagesTail, List.length_cons]
    omega

/-- Helper: with enough fuel, parsing the serialized tail recovers the
remaining messages. -/
theorem parseMessagesAfter_encode (ms : List ChatMessage) :
    ∀ (fuel : Nat) (rest : List Char), ms.length ≤ fuel →
      parseMessagesAfter fuel (encodeMessagesTail ms (']' :: rest)) = some (ms, rest) := by
  induction ms with
  | nil =>
    intro fuel rest _
    cases fuel with
    | zero => rfl
    | succ f => rfl
  | cons m ms' ih =>
    intro fuel rest hf
    cases fuel with
    | zero => exact absurd hf (by simp)
    | succ f =>
      show (do
          let p ← parseMessageObj (encodeMessage m (encodeMessagesTail ms' (']' :: rest)))
          let p2 ← parseMessagesAfter f p.2
          pure (p.1 :: p2.1, p2.2) : Option (List ChatMessage × List Char)) = some (m :: ms', rest)
      rw [parseMessageObj_encode]
      simp only [Option.bind_eq_bind, Option.some_bind]
      rw [ih f rest (by simp at hf; omega)]
      rfl

/-- Helper: parsing a whole serialized message array recovers the
original message list. -/
theorem parseMessagesText_encode (msgs : List ChatMessage) :
    parseMessagesText (stringifyMessages msgs).data = some msgs := by
  cases msgs with
  | nil => rfl
  | cons m ms =>
    obtain ⟨tail, htail⟩ :
        ∃ t, encodeMessage m (encodeMessagesTail ms (']' :: [])) = '\x7b' :: t := ⟨_, rfl⟩
    show parseMessagesText ('[' :: encodeMessage m (encodeMessagesTail ms (']' :: []))) = some (m :: ms)
    have hlen : ms.length ≤ ('[' :: encodeMessage m (encodeMessagesTail ms (']' :: []))).length := by
      have h1 := encodeMessagesTail_length ms (']' :: [])
      have h2 := encodeMessage_length m (encodeMessagesTail ms (']' :: []))
      simp only [List.length_cons] at *
      omega
    rw [htail]
    show (do
        let p ← parseMessageObj ('\x7b' :: tail)
        let p2 ← parseMessagesAfter ('[' :: '\x7b' :: tail).length p.2
        if p2.2.isEmpty then some (p.1 :: p2.1) else none : Option (List ChatMessage)) = some (m :: ms)
    rw [← htail, parseMessageObj_encode]
    simp only [Option.bind_eq_bind, Option.some_bind]
    rw [parseMessagesAfter_encode ms
      ('[' :: encodeMessage m (encodeMessagesTail ms (']' :: []))).length [] hlen]
    rfl

/-- C8: conversation message persistence round-trips — a native message
array is used as is, and the JSON string written by the save path is
parsed back by the string path into an equal ordered message list. -/
theorem claim8_messages_roundtrip (msgs : List ChatMessage) :
    loadStoredMessages (StoredMessages.array msgs) = msgs ∧
    loadStoredMessages (saveMessagesStored msgs) = msgs := by
  refine ⟨rfl, ?_⟩
  simp [loadStoredMessages, saveMessagesStored, parseMessagesText_encode]

end PathToAuth
